import Mathlib

/-!
The module mcpload: MCP23008/MCP23017 loader (src/mcpload.c)

A shallow embedding of the load path (`mcpload_load`, `mcpload_load_leds`) and of the
bulk teardown (`mcpload_exit`) of the kernel module, followed by the properties of the
entry lifecycle.

Conventions of the embedding.

* Pointers are `Option Nat`: `none` is `NULL`, `some a` is the address `a`.
* `unsigned int` variables hold a `Nat` below `2 ^ 32`; a value is reduced with `u32`
  when it is stored. `int` values are `Int`, brought back into range with `int32`
  (two's-complement wrap-around, the kernel is built with `-fno-strict-overflow`).
* The kernel services the module calls (`i2c_get_adapter`, `kzalloc`, `i2c_new_device`,
  `platform_device_register`) are not part of the repository: their results are read
  from an `Env`, and every call the module makes is appended to a trace of `Event`s.
* The registry is the list `entries`, head first, in `list_add_tail` order.
* A `printk` is recorded with its format text, without the level and module-name prefix.
* The `size_t count` of a write is a `Nat`; it is returned through `ssize_t`.
-/

namespace Mcpload

/-! ## Machine integers -/

/-- Store into an `unsigned int` (also the target of `sscanf`'s `%i`). -/
def u32 (v : Int) : Nat := (v % 4294967296).toNat

/-- Store into an `unsigned short` (`i2c_board_info.addr`). -/
def u16 (v : Nat) : Nat := v % 65536

/-- Value of a 32-bit pattern read as an `int`. -/
def int32 (v : Int) : Int :=
  if v % 4294967296 < 2147483648 then v % 4294967296 else v % 4294967296 - 4294967296

/-- Value of a `size_t` read as the `ssize_t` a sysfs store returns (64-bit kernel):
the low 64 bits, negative from `2 ^ 63` on. -/
def ssize_t (v : Nat) : Int :=
  if v % 18446744073709551616 < 9223372036854775808 then ((v % 18446744073709551616 : Nat) : Int)
  else ((v % 18446744073709551616 : Nat) : Int) - 18446744073709551616

/-- Errno values of `<linux/errno.h>`. -/
def EINVAL : Int := 22

/-- Errno: no such device. -/
def ENODEV : Int := 19

/-- Errno: out of memory. -/
def ENOMEM : Int := 12

/-! ## `sprintf (buf, "mcp:%d", gpio)` -/

/-- Output of the `%d` conversion: an optional minus sign and the decimal digits. -/
def fmt_d (v : Int) : List Char :=
  if v < 0 then '-' :: Nat.toDigits 10 v.natAbs else Nat.toDigits 10 v.natAbs

/-- The characters `sprintf` produces for the format `"mcp:%d"` (without the final NUL). -/
def sprintf_mcp (gpio : Int) : List Char :=
  'm' :: 'c' :: 'p' :: ':' :: fmt_d gpio

/-! ## Data model -/

/-- `default_state` of a `struct gpio_led` (`LEDS_GPIO_DEFSTATE_*`, `<linux/leds.h>`);
`OFF` is the value `0`. -/
inductive leds_gpio_defstate where
  | OFF
  | ON
  | KEEP
  deriving DecidableEq, Repr

/-- `struct gpio_led`. `name` points at a row of `led_names` (the row index), and
`default_trigger` at a string literal. -/
structure gpio_led where
  name : Option Nat
  default_trigger : Option String
  gpio : Nat
  active_low : Nat
  retain_state_suspended : Nat
  default_state : leds_gpio_defstate
  deriving DecidableEq, Repr

/-- Target of `gpio_led_platform_data.leds`: `NULL` or the entry's own `led_array`. -/
inductive leds_ptr where
  | null
  | led_array
  deriving DecidableEq, Repr

/-- `struct gpio_led_platform_data`. -/
structure gpio_led_platform_data where
  num_leds : Int
  leds : leds_ptr
  deriving DecidableEq, Repr

/-- `struct mcp23s08_chip_info`. -/
structure mcp23s08_chip_info where
  is_present : Bool
  pullups : Nat
  deriving DecidableEq, Repr

/-- `struct mcp23s08_platform_data`: eight chip slots and the GPIO base. -/
structure mcp23s08_platform_data where
  chip : List mcp23s08_chip_info
  base : Nat
  deriving DecidableEq, Repr

/-- `struct mcpload_entry`. `self` is the address `kzalloc` returned for the entry. -/
structure mcpload_entry where
  self : Nat
  i2c_client : Option Nat
  i2c_pdata : mcp23s08_platform_data
  led_pdev : Option Nat
  led_pdata : gpio_led_platform_data
  led_array : List gpio_led
  led_names : List (List Char)
  deriving DecidableEq, Repr

/-- An all-zero `struct gpio_led`. -/
def gpio_led_zero : gpio_led :=
  { name := none, default_trigger := none, gpio := 0, active_low := 0,
    retain_state_suspended := 0, default_state := leds_gpio_defstate.OFF }

/-- The entry as `kzalloc (sizeof (*entry), GFP_KERNEL)` hands it out at address `a`:
every field zero, `led_array[16]` and `led_names[16][20]` included. -/
def entry_zero (a : Nat) : mcpload_entry :=
  { self := a
    i2c_client := none
    i2c_pdata := { chip := List.replicate 8 { is_present := false, pullups := 0 }, base := 0 }
    led_pdev := none
    led_pdata := { num_leds := 0, leds := leds_ptr.null }
    led_array := List.replicate 16 gpio_led_zero
    led_names := List.replicate 16 [] }

/-- `struct i2c_board_info` as filled by `mcpload_load`. -/
structure i2c_board_info where
  type : String
  addr : Nat
  platform_data : mcp23s08_platform_data
  deriving DecidableEq, Repr

/-- What a `kzalloc` call allocates (its `sizeof` argument). -/
inductive kobj where
  | mcpload_entry
  | platform_device
  deriving DecidableEq, Repr

/-- Calls made by the module, in program order. A call that returns something the
module uses carries that result as its last argument. -/
inductive Event where
  | printk (msg : String)
  | i2c_get_adapter (nr : Int) (result : Option Nat)
  | kzalloc (what : kobj) (result : Option Nat)
  | i2c_new_device (adapter : Nat) (info : i2c_board_info) (result : Option Nat)
  | platform_device_register (pdev : Nat) (result : Int)
  | mutex_lock
  | mutex_unlock
  | list_add_tail (entry : Nat)
  | list_del (entry : Nat)
  | platform_device_unregister (pdev : Nat)
  | i2c_unregister_device (client : Option Nat)
  | kfree (ptr : Nat)
  | sysfs_remove_file
  deriving DecidableEq, Repr

/-- Results of the kernel services for one call of `mcpload_load`. -/
structure Env where
  i2c_get_adapter : Int → Option Nat
  kzalloc : kobj → Option Nat
  i2c_new_device : Nat → i2c_board_info → Option Nat
  platform_device_register : Nat → Int

/-! ## Execution state -/

/-- State threaded through a call: the registry `entries`, the calls made so far, and
`oob`, which is raised as soon as a store addresses `led_array` or `led_names` outside
their declared bounds (`[16]` and `[16][20]`). -/
structure State where
  entries : List mcpload_entry
  trace : List Event
  oob : Bool
  deriving DecidableEq, Repr

/-- State at the start of a call: nothing called yet, no store made yet. -/
def State.start (entries : List mcpload_entry) : State :=
  { entries := entries, trace := [], oob := false }

/-- Record one call. -/
def State.emit (s : State) (e : Event) : State :=
  { s with trace := s.trace ++ [e] }

/-! ## `mcpload_load_leds` -/

/-- The store done by `sprintf (entry->led_names[i], ...)`: the characters of `str` and
a NUL byte go to row `i` of `led_names[16][20]`. The flag tells whether the store stayed
inside the row. -/
def store_led_name (entry : mcpload_entry) (i : Nat) (str : List Char) :
    mcpload_entry × Bool :=
  if i < 16 ∧ str.length + 1 ≤ 20 then
    ({ entry with led_names := entry.led_names.set i str }, true)
  else
    (entry, false)

/-- The store `entry->led_array[i] = led`; the flag tells whether `i` is inside
`led_array[16]`. -/
def store_led (entry : mcpload_entry) (i : Nat) (led : gpio_led) : mcpload_entry × Bool :=
  if i < 16 then
    ({ entry with led_array := entry.led_array.set i led }, true)
  else
    (entry, false)

/-- Body of the `for` loop of `mcpload_load_leds` for the index `i`; the second
component accumulates the out-of-bounds flag. -/
def load_leds_body (gpiobase : Int) (st : mcpload_entry × Bool) (i : Nat) :
    mcpload_entry × Bool :=
  let gpio := int32 (gpiobase + i)
  let r1 := store_led_name st.1 i (sprintf_mcp gpio)
  let r2 := store_led r1.1 i
    { name := some i
      default_trigger := some "none"
      gpio := u32 gpio
      active_low := 0
      retain_state_suspended := 1
      default_state := leds_gpio_defstate.KEEP }
  (r2.1, st.2 || !r1.2 || !r2.2)

/-- The loop `for (i = 0; i < gpiolen; i++)`. -/
def load_leds_loop (gpiobase gpiolen : Int) (st : mcpload_entry × Bool) :
    mcpload_entry × Bool :=
  (List.range gpiolen.toNat).foldl (load_leds_body gpiobase) st

/-- The function `mcpload_load_leds (entry, gpiobase, gpiolen)`: returns the status,
the entry as the function leaves it, and the state. The platform device at `pdev` is
the `"leds-gpio"` device whose platform data is `&entry->led_pdata`. -/
def mcpload_load_leds (env : Env) (entry : mcpload_entry) (gpiobase gpiolen : Int)
    (s : State) : Int × mcpload_entry × State :=
  let s := s.emit (Event.kzalloc kobj.platform_device (env.kzalloc kobj.platform_device))
  match env.kzalloc kobj.platform_device with
  | none => (-ENOMEM, { entry with led_pdev := none }, s)
  | some pdev =>
    let entry := { entry with led_pdev := some pdev }
    let r := load_leds_loop gpiobase gpiolen (entry, s.oob)
    let entry := { r.1 with led_pdata := { num_leds := gpiolen, leds := leds_ptr.led_array } }
    let ret := env.platform_device_register pdev
    let s := { s with oob := r.2 }.emit (Event.platform_device_register pdev ret)
    if ret < 0 then
      (ret, entry, s.emit (Event.printk "failed to initialize LED device"))
    else
      (ret, entry, s.emit (Event.printk "LED initialized"))

/-! ## `mcpload_load` -/

/-- The `switch (gpiolen)`: the driver type, or nothing for the `default` branch. -/
def drvtype_of (gpiolen : Nat) : Option String :=
  if gpiolen = 8 then some "mcp23008"
  else if gpiolen = 16 then some "mcp23017"
  else none

/-- Label `err1`: `kfree (entry); return ret;`. -/
def err1 (entry : mcpload_entry) (ret : Int) (s : State) : Int × State :=
  (ret, s.emit (Event.kfree entry.self))

/-- Label `err2`: `i2c_unregister_device (client);` then falls through to `err1`. -/
def err2 (client : Option Nat) (entry : mcpload_entry) (ret : Int) (s : State) :
    Int × State :=
  err1 entry ret (s.emit (Event.i2c_unregister_device client))

/-- The success exit: the entry is linked at the tail of `entries` under
`entries_mutex`, and the `size_t count` is returned as an `ssize_t`. -/
def publish (entry : mcpload_entry) (count : Nat) (s : State) : Int × State :=
  let s := s.emit Event.mutex_lock
  let s := { s with entries := s.entries ++ [entry] }.emit (Event.list_add_tail entry.self)
  let s := s.emit Event.mutex_unlock
  (ssize_t count, s.emit (Event.printk "device at adapter %d device 0x%02x instantiated"))

/-- The six `unsigned int` variables of `mcpload_load` once `sscanf` has run. -/
structure Request where
  adapnum : Nat
  devnum : Nat
  gpiobase : Nat
  gpiolen : Nat
  pullups : Nat
  leds : Nat
  deriving DecidableEq, Repr

/-- Values of the variables after `sscanf (buf, "%i %i %i %i %i %i", ...)` converted the
values `scanned`, in order: `pullups` and `leds` keep their initial `0` when the fifth
and sixth fields are missing. -/
def scan_request (scanned : List Int) : Request :=
  { adapnum := u32 (scanned.getD 0 0)
    devnum := u32 (scanned.getD 1 0)
    gpiobase := u32 (scanned.getD 2 0)
    gpiolen := u32 (scanned.getD 3 0)
    pullups := u32 (scanned.getD 4 0)
    leds := u32 (scanned.getD 5 0) }

/-- The platform data built in the entry: `base` and the pull-ups of chip slot 0. -/
def build_pdata (entry : mcpload_entry) (rq : Request) : mcp23s08_platform_data :=
  { chip := entry.i2c_pdata.chip.set 0 { is_present := false, pullups := rq.pullups }
    base := rq.gpiobase }

/-- The `struct i2c_board_info` handed to `i2c_new_device`. -/
def build_info (drvtype : String) (rq : Request) (pdata : mcp23s08_platform_data) :
    i2c_board_info :=
  { type := drvtype, addr := u16 rq.devnum, platform_data := pdata }

/-- The function `mcpload_load (kobj, attr, buf, count)`. `scanned` lists the values
`sscanf` converted from `buf` (its return value is their number); `count` is the length
of the write. Returns the status and the final state. -/
def mcpload_load (env : Env) (scanned : List Int) (count : Nat) (s : State) :
    Int × State :=
  if scanned.length < 4 then (-EINVAL, s)
  else
    let rq := scan_request scanned
    match drvtype_of rq.gpiolen with
    | none => (-EINVAL, s.emit (Event.printk "gpio length must be 8 or 16"))
    | some drvtype =>
      let adapter := env.i2c_get_adapter (int32 rq.adapnum)
      let s := s.emit (Event.i2c_get_adapter (int32 rq.adapnum) adapter)
      match adapter with
      | none => (-ENODEV, s.emit (Event.printk "adapter %d not found"))
      | some adapter =>
        let s := s.emit (Event.kzalloc kobj.mcpload_entry (env.kzalloc kobj.mcpload_entry))
        match env.kzalloc kobj.mcpload_entry with
        | none => (-ENOMEM, s)
        | some a =>
          let entry := entry_zero a
          let pdata := build_pdata entry rq
          let entry := { entry with i2c_pdata := pdata }
          let info := build_info drvtype rq pdata
          let client := env.i2c_new_device adapter info
          let s := s.emit (Event.i2c_new_device adapter info client)
          let entry := { entry with i2c_client := client }
          match client with
          | none => err1 entry (-EINVAL) (s.emit (Event.printk "failed to load driver"))
          | some _ =>
            if rq.leds ≠ 0 then
              let r := mcpload_load_leds env entry (int32 rq.gpiobase) (int32 rq.gpiolen) s
              if r.1 < 0 then err2 client r.2.1 r.1 r.2.2
              else publish r.2.1 count r.2.2
            else publish entry count s

/-! ## `mcpload_exit` -/

/-- The call `list_del (&(pos->list))`: the node of `pos` is unlinked from `entries`. -/
def list_del (pos : mcpload_entry) (s : State) : State :=
  { s with entries := s.entries.erase pos }.emit (Event.list_del pos.self)

/-- One iteration of the `list_for_each_entry_safe` body for the node `pos`. -/
def exit_body (pos : mcpload_entry) (s : State) : State :=
  let s :=
    match pos.led_pdev with
    | some pdev => (s.emit (Event.platform_device_unregister pdev)).emit (Event.kfree pdev)
    | none => s
  let s := list_del pos s
  let s := s.emit (Event.i2c_unregister_device pos.i2c_client)
  s.emit (Event.kfree pos.self)

/-- The loop `list_for_each_entry_safe (pos, tmp, &entries, list)`: `pos` is the first
node still to visit and `tmp` the nodes after it, saved before the body runs. -/
def exit_loop : List mcpload_entry → State → State
  | [], s => s
  | pos :: tmp, s => exit_loop tmp (exit_body pos s)

/-- The function `mcpload_exit ()`. -/
def mcpload_exit (s : State) : State :=
  let s := s.emit Event.sysfs_remove_file
  let s := s.emit Event.mutex_lock
  let s := exit_loop s.entries s
  s.emit Event.mutex_unlock

/-! ## Definitions used to state the properties -/

/-- Value of a decimal digit character. -/
def digit_val (c : Char) : Nat := c.toNat - 48

/-- Number read from a string of decimal digits. -/
def dec_val (cs : List Char) : Nat := cs.foldl (fun a c => 10 * a + digit_val c) 0

/-- Number read back from the output of `%d`. -/
def parse_d (cs : List Char) : Int :=
  match cs with
  | '-' :: ds => -(dec_val ds : Int)
  | ds => (dec_val ds : Int)

/-- The descriptor written for channel `i`. -/
def led_of (gpiobase : Int) (i : Nat) : gpio_led :=
  { name := some i
    default_trigger := some "none"
    gpio := u32 (int32 (gpiobase + i))
    active_low := 0
    retain_state_suspended := 1
    default_state := leds_gpio_defstate.KEEP }

/-- The entry of `mcpload_load` once the expander client is stored in it. -/
def entry_built (a : Nat) (rq : Request) (client : Option Nat) : mcpload_entry :=
  { entry_zero a with i2c_pdata := build_pdata (entry_zero a) rq, i2c_client := client }

/-- The calls of `mcpload_load` up to and including `i2c_new_device`. -/
def trace_to_client (rq : Request) (drv : String) (adapter a : Nat) (client : Option Nat) :
    List Event :=
  [Event.i2c_get_adapter (int32 rq.adapnum) (some adapter),
   Event.kzalloc kobj.mcpload_entry (some a),
   Event.i2c_new_device adapter (build_info drv rq (build_pdata (entry_zero a) rq)) client]

/-- The calls made by one iteration of the teardown loop for the node `pos`. -/
def exit_events (pos : mcpload_entry) : List Event :=
  (match pos.led_pdev with
    | some pdev => [Event.platform_device_unregister pdev, Event.kfree pdev]
    | none => []) ++
  [Event.list_del pos.self, Event.i2c_unregister_device pos.i2c_client, Event.kfree pos.self]

/-- Calls that release a device: the indicator bank or the expander. -/
def Event.is_release : Event → Bool
  | Event.platform_device_unregister _ => true
  | Event.i2c_unregister_device _ => true
  | _ => false

/-- The expander clients passed to `i2c_unregister_device`, in call order. -/
def released_clients : List Event → List (Option Nat)
  | [] => []
  | Event.i2c_unregister_device c :: t => c :: released_clients t
  | _ :: t => released_clients t

/-- The platform devices passed to `platform_device_unregister`, in call order. -/
def released_pdevs : List Event → List Nat
  | [] => []
  | Event.platform_device_unregister p :: t => p :: released_pdevs t
  | _ :: t => released_pdevs t

/-- Calls that instantiate or release an expander or an indicator device. -/
def Event.is_device_io : Event → Bool
  | Event.i2c_new_device _ _ _ => true
  | Event.platform_device_register _ _ => true
  | Event.platform_device_unregister _ => true
  | Event.i2c_unregister_device _ => true
  | _ => false

/-- Scan of a trace: `held` tells whether `entries_mutex` is held before the first
call; the result tells whether no device call is made while the mutex is held. -/
def io_outside_lock : Bool → List Event → Bool
  | _, [] => true
  | _, Event.mutex_lock :: t => io_outside_lock true t
  | _, Event.mutex_unlock :: t => io_outside_lock false t
  | held, e :: t => !(held && e.is_device_io) && io_outside_lock held t

/-- Scan of a trace: `held` tells whether `entries_mutex` is held before the first
call; the result tells whether every device call is made while the mutex is held. -/
def io_inside_lock : Bool → List Event → Bool
  | _, [] => true
  | _, Event.mutex_lock :: t => io_inside_lock true t
  | _, Event.mutex_unlock :: t => io_inside_lock false t
  | held, e :: t => (held || !e.is_device_io) && io_inside_lock held t

/-- Kernel in which adapter 0 exists and every later step succeeds. -/
def env_ok : Env :=
  { i2c_get_adapter := fun nr => if nr = 0 then some 1000 else none
    kzalloc := fun k =>
      match k with
      | kobj.mcpload_entry => some 2000
      | kobj.platform_device => some 3000
    i2c_new_device := fun _ _ => some 4000
    platform_device_register := fun _ => 0 }

/-- Kernel in which every step succeeds except `platform_device_register`, which
returns `-ENOMEM`. -/
def env_led_fail : Env :=
  { env_ok with platform_device_register := fun _ => -12 }

/-- The clients `i2c_new_device` handed out (its non-`NULL` results), in call order. -/
def created_clients : List Event → List (Option Nat)
  | [] => []
  | Event.i2c_new_device _ _ (some c) :: t => some c :: created_clients t
  | _ :: t => created_clients t

/-! ## Decimal rendering -/

/-- The value of the character of a digit below ten is that digit. -/
theorem digit_val_digitChar (d : Nat) (h : d < 10) : digit_val (Nat.digitChar d) = d := by
  interval_cases d <;> rfl

/-- No digit character is the minus sign. -/
theorem digitChar_ne_minus (d : Nat) (h : d < 10) : Nat.digitChar d ≠ '-' := by
  interval_cases d <;> decide

/-- Reading digits after a prefix of value `a` shifts `a` by the number of digits read. -/
theorem foldl_dec_val (cs : List Char) (a : Nat) :
    cs.foldl (fun a c => 10 * a + digit_val c) a = a * 10 ^ cs.length + dec_val cs := by
  induction cs generalizing a with
  | nil => simp [dec_val]
  | cons c cs ih =>
    simp only [List.foldl_cons, List.length_cons, dec_val]
    rw [ih, ih (10 * 0 + digit_val c)]
    ring

/-- The accumulator of `Nat.toDigitsCore` ends up behind the digits produced. -/
theorem toDigitsCore_append (fuel n : Nat) (acc : List Char) :
    Nat.toDigitsCore 10 fuel n acc = Nat.toDigitsCore 10 fuel n [] ++ acc := by
  induction fuel generalizing n acc with
  | zero => simp [Nat.toDigitsCore]
  | succ f ih =>
    simp only [Nat.toDigitsCore]
    split
    · simp
    · rw [ih, ih (n / 10) [Nat.digitChar (n % 10)]]
      simp

/-- With enough fuel, reading back the digits of `n` gives `n`. -/
theorem dec_val_toDigitsCore (fuel n : Nat) (h : n < fuel) :
    dec_val (Nat.toDigitsCore 10 fuel n []) = n := by
  induction fuel generalizing n with
  | zero => omega
  | succ f ih =>
    simp only [Nat.toDigitsCore]
    split
    · rename_i h0
      simp only [dec_val, List.foldl_cons, List.foldl_nil]
      rw [digit_val_digitChar _ (Nat.mod_lt _ (by decide))]
      omega
    · rename_i h0
      rw [toDigitsCore_append]
      have hlt : n / 10 < f := by omega
      simp only [dec_val, List.foldl_append, List.foldl_cons, List.foldl_nil]
      have := ih (n / 10) hlt
      simp only [dec_val] at this
      rw [this, digit_val_digitChar _ (Nat.mod_lt _ (by decide))]
      omega

/-- Reading back the decimal digits of `n` gives `n`. -/
theorem dec_val_toDigits (n : Nat) : dec_val (Nat.toDigits 10 n) = n :=
  dec_val_toDigitsCore (n + 1) n (Nat.lt_succ_self n)

/-- Every character produced by `Nat.toDigitsCore` is a digit character or comes from the accumulator. -/
theorem toDigitsCore_mem (fuel n : Nat) (acc : List Char) (c : Char)
    (h : c ∈ Nat.toDigitsCore 10 fuel n acc) : c ∈ acc ∨ ∃ d, d < 10 ∧ c = Nat.digitChar d := by
  induction fuel generalizing n acc with
  | zero => left; simpa [Nat.toDigitsCore] using h
  | succ f ih =>
    simp only [Nat.toDigitsCore] at h
    split at h
    · rcases List.mem_cons.mp h with h1 | h1
      · exact Or.inr ⟨n % 10, Nat.mod_lt _ (by decide), h1⟩
      · exact Or.inl h1
    · rcases ih _ _ h with h1 | h1
      · rcases List.mem_cons.mp h1 with h2 | h2
        · exact Or.inr ⟨n % 10, Nat.mod_lt _ (by decide), h2⟩
        · exact Or.inl h2
      · exact Or.inr h1

/-- The decimal digits of a natural number hold no minus sign. -/
theorem minus_not_mem_toDigits (n : Nat) : '-' ∉ Nat.toDigits 10 n := by
  intro h
  rcases toDigitsCore_mem _ _ _ _ h with h1 | ⟨d, hd, h1⟩
  · simp at h1
  · exact digitChar_ne_minus d hd h1.symm

/-- Reading back the output of `%d` gives the number printed. -/
theorem parse_d_fmt_d (v : Int) : parse_d (fmt_d v) = v := by
  unfold fmt_d
  split
  · rename_i h
    simp only [parse_d, dec_val_toDigits]
    omega
  · rename_i h
    have hm := minus_not_mem_toDigits v.natAbs
    unfold parse_d
    split
    · rename_i ds heq
      rw [heq] at hm
      simp at hm
    · simp only [dec_val_toDigits]
      omega

/-- The conversion `%d` prints different numbers differently. -/
theorem fmt_d_injective (v w : Int) (h : fmt_d v = fmt_d w) : v = w := by
  have := congrArg parse_d h
  simpa [parse_d_fmt_d] using this

/-- Two names `"mcp:%d"` are equal exactly when their numbers are. -/
theorem sprintf_mcp_inj (v w : Int) : sprintf_mcp v = sprintf_mcp w ↔ v = w := by
  constructor
  · intro h
    apply fmt_d_injective
    simpa [sprintf_mcp] using h
  · intro h; rw [h]

/-- A number below `10 ^ 10` has at most ten decimal digits. -/
theorem toDigits_length_le (n : Nat) (h : n < 10 ^ 10) : (Nat.toDigits 10 n).length ≤ 10 :=
  Nat.toDigitsCore_length 10 (by decide) (n + 1) n 10 h (by decide)

/-- A `size_t` below `2 ^ 63` is returned unchanged as an `ssize_t`. -/
theorem ssize_t_eq_self (v : Nat) (h : v < 9223372036854775808) : ssize_t v = v := by
  unfold ssize_t
  split <;> omega

/-- The conversion `%d` prints what `toString` prints for an integer. -/
theorem fmt_d_eq_toString (v : Int) : fmt_d v = (toString v).toList := by
  cases v with
  | ofNat m =>
    have h : ¬ (Int.ofNat m < 0) := by simp
    simp only [fmt_d, h, if_false]
    rfl
  | negSucc m =>
    have h : Int.negSucc m < 0 := Int.negSucc_lt_zero m
    simp only [fmt_d, h, if_true]
    rfl

/-- The function `int32` lands in the range of an `int`. -/
theorem int32_range (v : Int) : -2147483648 ≤ int32 v ∧ int32 v < 2147483648 := by
  unfold int32
  split <;> omega

/-- The function `int32` leaves a value that fits an `int` as it is. -/
theorem int32_eq_self (v : Int) (h1 : -2147483648 ≤ v) (h2 : v < 2147483648) : int32 v = v := by
  unfold int32
  split <;> omega

/-- For an `int` the name `"mcp:%d"` has at most 15 characters. -/
theorem sprintf_mcp_length (v : Int) (h1 : -2147483648 ≤ v) (h2 : v < 2147483648) :
    (sprintf_mcp v).length ≤ 15 := by
  have hn : v.natAbs < 10 ^ 10 := by
    have : v.natAbs ≤ 2147483648 := by omega
    exact lt_of_le_of_lt this (by norm_num)
  have := toDigits_length_le v.natAbs hn
  unfold sprintf_mcp fmt_d
  split <;> simp only [List.length_cons] <;> omega

/-! ## The loop of `mcpload_load_leds` -/

/-- For an index below 16 the loop body stores the name and the descriptor and raises no flag. -/
theorem load_leds_body_eq (gpiobase : Int) (e : mcpload_entry) (b : Bool) (i : Nat)
    (hi : i < 16) :
    load_leds_body gpiobase (e, b) i =
      ({ e with led_names := e.led_names.set i (sprintf_mcp (int32 (gpiobase + i)))
                led_array := e.led_array.set i (led_of gpiobase i) }, b) := by
  have hlen : (sprintf_mcp (int32 (gpiobase + i))).length + 1 ≤ 20 := by
    have := sprintf_mcp_length _ (int32_range (gpiobase + i)).1 (int32_range (gpiobase + i)).2
    omega
  simp [load_leds_body, store_led_name, store_led, hi, hlen, led_of]

/-- Effect of the first `k ≤ 16` iterations of the loop: rows and descriptors below `k` are written, the others and all other fields are untouched, the flag is unchanged. -/
theorem load_leds_range (gpiobase : Int) (k : Nat) (hk : k ≤ 16) (e : mcpload_entry) (b : Bool) :
    ∃ names leds,
      (List.range k).foldl (load_leds_body gpiobase) (e, b) =
        ({ e with led_names := names, led_array := leds }, b) ∧
      names.length = e.led_names.length ∧ leds.length = e.led_array.length ∧
      (∀ i, i < k → i < e.led_names.length →
        names[i]? = some (sprintf_mcp (int32 (gpiobase + i)))) ∧
      (∀ i, k ≤ i → names[i]? = e.led_names[i]?) ∧
      (∀ i, i < k → i < e.led_array.length → leds[i]? = some (led_of gpiobase i)) ∧
      (∀ i, k ≤ i → leds[i]? = e.led_array[i]?) := by
  induction k with
  | zero => exact ⟨e.led_names, e.led_array, by simp, rfl, rfl, by simp, by simp, by simp, by simp⟩
  | succ k ih =>
    obtain ⟨names, leds, heq, hn, hl, h1, h2, h3, h4⟩ := ih (by omega)
    rw [List.range_succ, List.foldl_append, heq]
    simp only [List.foldl_cons, List.foldl_nil]
    rw [load_leds_body_eq _ _ _ _ (by omega)]
    refine ⟨names.set k (sprintf_mcp (int32 (gpiobase + k))), leds.set k (led_of gpiobase k),
      rfl, by simp [hn], by simp [hl], ?_, ?_, ?_, ?_⟩
    · intro i hi hlt
      by_cases hik : i = k
      · subst hik
        simp [List.getElem?_set, hn, hlt]
      · rw [List.getElem?_set_ne (by omega)]
        exact h1 i (by omega) hlt
    · intro i hi
      rw [List.getElem?_set_ne (by omega)]
      exact h2 i (by omega)
    · intro i hi hlt
      by_cases hik : i = k
      · subst hik
        simp [List.getElem?_set, hl, hlt]
      · rw [List.getElem?_set_ne (by omega)]
        exact h3 i (by omega) hlt
    · intro i hi
      rw [List.getElem?_set_ne (by omega)]
      exact h4 i (by omega)

/-- The function `mcpload_load_leds` when its `kzalloc` fails. -/
theorem load_leds_alloc_fail (env : Env) (entry : mcpload_entry) (gpiobase gpiolen : Int)
    (s : State) (halloc : env.kzalloc kobj.platform_device = none) :
    mcpload_load_leds env entry gpiobase gpiolen s =
      (-ENOMEM, { entry with led_pdev := none },
        s.emit (Event.kzalloc kobj.platform_device none)) := by
  simp [mcpload_load_leds, halloc]

/-- The function `mcpload_load_leds` once its `kzalloc` succeeded, for a loop bound of at most 16. -/
theorem load_leds_result (env : Env) (entry : mcpload_entry) (gpiobase gpiolen : Int)
    (s : State) (p : Nat) (hk : gpiolen.toNat ≤ 16)
    (halloc : env.kzalloc kobj.platform_device = some p) :
    ∃ names leds,
      mcpload_load_leds env entry gpiobase gpiolen s =
        (env.platform_device_register p,
          { entry with
            led_pdev := some p
            led_names := names
            led_array := leds
            led_pdata := { num_leds := gpiolen, leds := leds_ptr.led_array } },
          { s with
            trace := s.trace ++
              [Event.kzalloc kobj.platform_device (some p),
               Event.platform_device_register p (env.platform_device_register p),
               Event.printk (if env.platform_device_register p < 0
                 then "failed to initialize LED device" else "LED initialized")] }) ∧
      names.length = entry.led_names.length ∧ leds.length = entry.led_array.length ∧
      (∀ i, i < gpiolen.toNat → i < entry.led_names.length →
        names[i]? = some (sprintf_mcp (int32 (gpiobase + i)))) ∧
      (∀ i, gpiolen.toNat ≤ i → names[i]? = entry.led_names[i]?) ∧
      (∀ i, i < gpiolen.toNat → i < entry.led_array.length →
        leds[i]? = some (led_of gpiobase i)) ∧
      (∀ i, gpiolen.toNat ≤ i → leds[i]? = entry.led_array[i]?) := by
  obtain ⟨names, leds, heq, hn, hl, h1, h2, h3, h4⟩ :=
    load_leds_range gpiobase gpiolen.toNat hk { entry with led_pdev := some p } s.oob
  refine ⟨names, leds, ?_, hn, hl, h1, h2, h3, h4⟩
  simp only [mcpload_load_leds, halloc, load_leds_loop, State.emit, heq]
  split <;> simp_all

/-! ## The paths of `mcpload_load` -/

/-- A fresh entry knows its address. -/
theorem entry_zero_self (a : Nat) : (entry_zero a).self = a := rfl

/-- The `switch` accepts exactly the lengths 8 and 16. -/
theorem drvtype_of_some_iff (gpiolen : Nat) :
    (∃ drv, drvtype_of gpiolen = some drv) ↔ gpiolen = 8 ∨ gpiolen = 16 := by
  unfold drvtype_of
  constructor
  · rintro ⟨drv, h⟩
    split at h
    · left; assumption
    · split at h
      · right; assumption
      · simp at h
  · rintro (h | h) <;> simp [h]

/-- A length accepted by the `switch` is 8 or 16 and is unchanged by the conversion to `int`. -/
theorem gpiolen_toNat_le (gpiolen : Nat) (drv : String) (h : drvtype_of gpiolen = some drv) :
    (gpiolen = 8 ∨ gpiolen = 16) ∧ int32 gpiolen = gpiolen := by
  unfold drvtype_of at h
  split at h
  · subst_vars; exact ⟨Or.inl rfl, by decide⟩
  · split at h
    · subst_vars; exact ⟨Or.inr rfl, by decide⟩
    · simp at h

/-- Path of `mcpload_load`: fewer than four fields converted. -/
theorem load_short (env : Env) (scanned : List Int) (count : Nat) (s : State)
    (hlen : scanned.length < 4) : mcpload_load env scanned count s = (-EINVAL, s) := by
  simp [mcpload_load, hlen]

/-- Path of `mcpload_load`: the `default` branch of the `switch`. -/
theorem load_bad_gpiolen (env : Env) (scanned : List Int) (count : Nat) (s : State)
    (hlen : ¬ scanned.length < 4) (hdrv : drvtype_of (scan_request scanned).gpiolen = none) :
    mcpload_load env scanned count s =
      (-EINVAL, s.emit (Event.printk "gpio length must be 8 or 16")) := by
  simp [mcpload_load, hlen, hdrv]

/-- Path of `mcpload_load`: `i2c_get_adapter` returns `NULL`. -/
theorem load_no_adapter (env : Env) (scanned : List Int) (count : Nat) (s : State)
    (drv : String)
    (hlen : ¬ scanned.length < 4) (hdrv : drvtype_of (scan_request scanned).gpiolen = some drv)
    (hbus : env.i2c_get_adapter (int32 (scan_request scanned).adapnum) = none) :
    mcpload_load env scanned count s =
      (-ENODEV, { s with trace := s.trace ++
        [Event.i2c_get_adapter (int32 (scan_request scanned).adapnum) none,
         Event.printk "adapter %d not found"] }) := by
  simp [mcpload_load, hlen, hdrv, hbus, State.emit]

/-- Path of `mcpload_load`: the entry cannot be allocated. -/
theorem load_no_memory (env : Env) (scanned : List Int) (count : Nat) (s : State)
    (drv : String) (adapter : Nat)
    (hlen : ¬ scanned.length < 4) (hdrv : drvtype_of (scan_request scanned).gpiolen = some drv)
    (hbus : env.i2c_get_adapter (int32 (scan_request scanned).adapnum) = some adapter)
    (halloc : env.kzalloc kobj.mcpload_entry = none) :
    mcpload_load env scanned count s =
      (-ENOMEM, { s with trace := s.trace ++
        [Event.i2c_get_adapter (int32 (scan_request scanned).adapnum) (some adapter),
         Event.kzalloc kobj.mcpload_entry none] }) := by
  simp [mcpload_load, hlen, hdrv, hbus, halloc, State.emit]

/-- Path of `mcpload_load`: `i2c_new_device` returns `NULL`. -/
theorem load_no_client (env : Env) (scanned : List Int) (count : Nat) (s : State)
    (drv : String) (adapter a : Nat)
    (hlen : ¬ scanned.length < 4) (hdrv : drvtype_of (scan_request scanned).gpiolen = some drv)
    (hbus : env.i2c_get_adapter (int32 (scan_request scanned).adapnum) = some adapter)
    (halloc : env.kzalloc kobj.mcpload_entry = some a)
    (hdev : env.i2c_new_device adapter
      (build_info drv (scan_request scanned) (build_pdata (entry_zero a) (scan_request scanned)))
        = none) :
    mcpload_load env scanned count s =
      (-EINVAL,
        { s with
          trace := s.trace ++
            trace_to_client (scan_request scanned) drv adapter a none ++
            [Event.printk "failed to load driver", Event.kfree a] }) := by
  simp [mcpload_load, hlen, hdrv, hbus, halloc, hdev, State.emit, err1, trace_to_client,
    entry_zero_self]

/-- Path of `mcpload_load`: success without indicators. -/
theorem load_no_leds (env : Env) (scanned : List Int) (count : Nat) (s : State)
    (drv : String) (adapter a c : Nat)
    (hlen : ¬ scanned.length < 4) (hdrv : drvtype_of (scan_request scanned).gpiolen = some drv)
    (hbus : env.i2c_get_adapter (int32 (scan_request scanned).adapnum) = some adapter)
    (halloc : env.kzalloc kobj.mcpload_entry = some a)
    (hdev : env.i2c_new_device adapter
      (build_info drv (scan_request scanned) (build_pdata (entry_zero a) (scan_request scanned)))
        = some c)
    (hleds : (scan_request scanned).leds = 0) :
    mcpload_load env scanned count s =
      (ssize_t count,
        { s with
          entries := s.entries ++ [entry_built a (scan_request scanned) (some c)],
          trace := s.trace ++
            trace_to_client (scan_request scanned) drv adapter a (some c) ++
            [Event.mutex_lock, Event.list_add_tail a, Event.mutex_unlock,
             Event.printk "device at adapter %d device 0x%02x instantiated"] }) := by
  simp [mcpload_load, hlen, hdrv, hbus, halloc, hdev, hleds, State.emit, publish,
    trace_to_client, entry_built, entry_zero_self]

/-- Path of `mcpload_load`: the platform device cannot be allocated. -/
theorem load_leds_no_memory (env : Env) (scanned : List Int) (count : Nat) (s : State)
    (drv : String) (adapter a c : Nat)
    (hlen : ¬ scanned.length < 4) (hdrv : drvtype_of (scan_request scanned).gpiolen = some drv)
    (hbus : env.i2c_get_adapter (int32 (scan_request scanned).adapnum) = some adapter)
    (halloc : env.kzalloc kobj.mcpload_entry = some a)
    (hdev : env.i2c_new_device adapter
      (build_info drv (scan_request scanned) (build_pdata (entry_zero a) (scan_request scanned)))
        = some c)
    (hleds : (scan_request scanned).leds ≠ 0)
    (hpdev : env.kzalloc kobj.platform_device = none) :
    mcpload_load env scanned count s =
      (-ENOMEM,
        { s with
          trace := s.trace ++
            trace_to_client (scan_request scanned) drv adapter a (some c) ++
            [Event.kzalloc kobj.platform_device none,
             Event.i2c_unregister_device (some c), Event.kfree a] }) := by
  simp [mcpload_load, hlen, hdrv, hbus, halloc, hdev, hleds, State.emit, err1, err2,
    trace_to_client, load_leds_alloc_fail, hpdev, ENOMEM, entry_zero_self]

/-- Path of `mcpload_load`: `platform_device_register` fails. -/
theorem load_leds_register_fail (env : Env) (scanned : List Int) (count : Nat) (s : State)
    (drv : String) (adapter a c p : Nat)
    (hlen : ¬ scanned.length < 4) (hdrv : drvtype_of (scan_request scanned).gpiolen = some drv)
    (hbus : env.i2c_get_adapter (int32 (scan_request scanned).adapnum) = some adapter)
    (halloc : env.kzalloc kobj.mcpload_entry = some a)
    (hdev : env.i2c_new_device adapter
      (build_info drv (scan_request scanned) (build_pdata (entry_zero a) (scan_request scanned)))
        = some c)
    (hleds : (scan_request scanned).leds ≠ 0)
    (hpdev : env.kzalloc kobj.platform_device = some p)
    (hreg : env.platform_device_register p < 0) :
    mcpload_load env scanned count s =
      (env.platform_device_register p,
        { s with
          trace := s.trace ++
            trace_to_client (scan_request scanned) drv adapter a (some c) ++
            [Event.kzalloc kobj.platform_device (some p),
             Event.platform_device_register p (env.platform_device_register p),
             Event.printk "failed to initialize LED device",
             Event.i2c_unregister_device (some c), Event.kfree a] }) := by
  have hg := gpiolen_toNat_le _ drv hdrv
  have hk : (int32 (scan_request scanned).gpiolen).toNat ≤ 16 := by
    rw [hg.2]; rcases hg.1 with h | h <;> simp [h]
  obtain ⟨names, leds, heq, -⟩ := load_leds_result env
    { entry_zero a with
      i2c_pdata := build_pdata (entry_zero a) (scan_request scanned), i2c_client := some c }
    (int32 (scan_request scanned).gpiobase) (int32 (scan_request scanned).gpiolen)
    (((s.emit (Event.i2c_get_adapter (int32 (scan_request scanned).adapnum) (some adapter))).emit
      (Event.kzalloc kobj.mcpload_entry (some a))).emit
      (Event.i2c_new_device adapter (build_info drv (scan_request scanned)
        (build_pdata (entry_zero a) (scan_request scanned))) (some c))) p hk hpdev
  simp only [mcpload_load, hlen, hdrv, hbus, halloc, hdev, hleds, if_false, ne_eq,
    not_false_eq_true, if_true, heq, hreg]
  simp [State.emit, err1, err2, trace_to_client, hreg, entry_zero_self]

/-- Path of `mcpload_load`: success with indicators. -/
theorem load_leds_ok (env : Env) (scanned : List Int) (count : Nat) (s : State)
    (drv : String) (adapter a c p : Nat)
    (hlen : ¬ scanned.length < 4) (hdrv : drvtype_of (scan_request scanned).gpiolen = some drv)
    (hbus : env.i2c_get_adapter (int32 (scan_request scanned).adapnum) = some adapter)
    (halloc : env.kzalloc kobj.mcpload_entry = some a)
    (hdev : env.i2c_new_device adapter
      (build_info drv (scan_request scanned) (build_pdata (entry_zero a) (scan_request scanned)))
        = some c)
    (hleds : (scan_request scanned).leds ≠ 0)
    (hpdev : env.kzalloc kobj.platform_device = some p)
    (hreg : ¬ env.platform_device_register p < 0) :
    ∃ names leds,
      mcpload_load env scanned count s =
        (ssize_t count,
          { s with
            entries := s.entries ++
              [{ entry_built a (scan_request scanned) (some c) with
                 led_pdev := some p
                 led_names := names
                 led_array := leds
                 led_pdata :=
                   { num_leds := (scan_request scanned).gpiolen, leds := leds_ptr.led_array } }],
            trace := s.trace ++
              trace_to_client (scan_request scanned) drv adapter a (some c) ++
              [Event.kzalloc kobj.platform_device (some p),
               Event.platform_device_register p (env.platform_device_register p),
               Event.printk "LED initialized",
               Event.mutex_lock, Event.list_add_tail a, Event.mutex_unlock,
               Event.printk "device at adapter %d device 0x%02x instantiated"] }) ∧
      names.length = 16 ∧ leds.length = 16 ∧
      (∀ i, i < (scan_request scanned).gpiolen →
        names[i]? = some (sprintf_mcp (int32 (int32 (scan_request scanned).gpiobase + i)))) ∧
      (∀ i, i < (scan_request scanned).gpiolen →
        leds[i]? = some (led_of (int32 (scan_request scanned).gpiobase) i)) := by
  have hg := gpiolen_toNat_le _ drv hdrv
  have hk : (int32 (scan_request scanned).gpiolen).toNat ≤ 16 := by
    rw [hg.2]; rcases hg.1 with h | h <;> simp [h]
  obtain ⟨names, leds, heq, hn, hl, h1, -, h3, -⟩ := load_leds_result env
    { entry_zero a with
      i2c_pdata := build_pdata (entry_zero a) (scan_request scanned), i2c_client := some c }
    (int32 (scan_request scanned).gpiobase) (int32 (scan_request scanned).gpiolen)
    (((s.emit (Event.i2c_get_adapter (int32 (scan_request scanned).adapnum) (some adapter))).emit
      (Event.kzalloc kobj.mcpload_entry (some a))).emit
      (Event.i2c_new_device adapter (build_info drv (scan_request scanned)
        (build_pdata (entry_zero a) (scan_request scanned))) (some c))) p hk hpdev
  refine ⟨names, leds, ?_, ?_, ?_, ?_, ?_⟩
  · simp only [mcpload_load, hlen, hdrv, hbus, halloc, hdev, hleds, if_false, ne_eq,
      not_false_eq_true, if_true, heq, hreg]
    simp [State.emit, publish, trace_to_client, hreg, entry_zero_self, entry_built, hg.2]
  · rw [hn]; rfl
  · rw [hl]; rfl
  · intro i hi
    have hlt : i < 16 := by rcases hg.1 with h | h <;> omega
    exact h1 i (by rw [hg.2]; simpa using hi) (by simpa [entry_zero] using hlt)
  · intro i hi
    have hlt : i < 16 := by rcases hg.1 with h | h <;> omega
    exact h3 i (by rw [hg.2]; simpa using hi) (by simpa [entry_zero] using hlt)

/-- No path of `mcpload_load` makes a device call while the mutex is held. -/
theorem load_io_outside_lock (env : Env) (scanned : List Int) (count : Nat)
    (entries : List mcpload_entry) :
    io_outside_lock false (mcpload_load env scanned count (State.start entries)).2.trace = true := by
  by_cases hlen : scanned.length < 4
  · rw [load_short _ _ _ _ hlen]; rfl
  · cases hdrv : drvtype_of (scan_request scanned).gpiolen with
    | none => rw [load_bad_gpiolen _ _ _ _ hlen hdrv]; rfl
    | some drv =>
      cases hbus : env.i2c_get_adapter (int32 (scan_request scanned).adapnum) with
      | none => rw [load_no_adapter _ _ _ _ drv hlen hdrv hbus]; rfl
      | some adapter =>
        cases halloc : env.kzalloc kobj.mcpload_entry with
        | none => rw [load_no_memory _ _ _ _ drv adapter hlen hdrv hbus halloc]; rfl
        | some a =>
          cases hdev : env.i2c_new_device adapter (build_info drv (scan_request scanned)
              (build_pdata (entry_zero a) (scan_request scanned))) with
          | none => rw [load_no_client _ _ _ _ drv adapter a hlen hdrv hbus halloc hdev]; rfl
          | some c =>
            by_cases hleds : (scan_request scanned).leds = 0
            · rw [load_no_leds _ _ _ _ drv adapter a c hlen hdrv hbus halloc hdev hleds]; rfl
            · cases hpdev : env.kzalloc kobj.platform_device with
              | none =>
                rw [load_leds_no_memory _ _ _ _ drv adapter a c hlen hdrv hbus halloc hdev
                  hleds hpdev]
                rfl
              | some p =>
                by_cases hreg : env.platform_device_register p < 0
                · rw [load_leds_register_fail _ _ _ _ drv adapter a c p hlen hdrv hbus halloc
                    hdev hleds hpdev hreg]
                  rfl
                · obtain ⟨names, leds, heq, -⟩ := load_leds_ok env scanned count
                    (State.start entries) drv adapter a c p hlen hdrv hbus halloc hdev hleds
                    hpdev hreg
                  rw [heq]; rfl

/-- No path of `mcpload_load` raises the out-of-bounds flag. -/
theorem load_keeps_oob (env : Env) (scanned : List Int) (count : Nat) (s : State) :
    (mcpload_load env scanned count s).2.oob = s.oob := by
  by_cases hlen : scanned.length < 4
  · rw [load_short _ _ _ _ hlen]
  · cases hdrv : drvtype_of (scan_request scanned).gpiolen with
    | none => rw [load_bad_gpiolen _ _ _ _ hlen hdrv]; rfl
    | some drv =>
      cases hbus : env.i2c_get_adapter (int32 (scan_request scanned).adapnum) with
      | none => rw [load_no_adapter _ _ _ _ drv hlen hdrv hbus]
      | some adapter =>
        cases halloc : env.kzalloc kobj.mcpload_entry with
        | none => rw [load_no_memory _ _ _ _ drv adapter hlen hdrv hbus halloc]
        | some a =>
          cases hdev : env.i2c_new_device adapter (build_info drv (scan_request scanned)
              (build_pdata (entry_zero a) (scan_request scanned))) with
          | none => rw [load_no_client _ _ _ _ drv adapter a hlen hdrv hbus halloc hdev]
          | some c =>
            by_cases hleds : (scan_request scanned).leds = 0
            · rw [load_no_leds _ _ _ _ drv adapter a c hlen hdrv hbus halloc hdev hleds]
            · cases hpdev : env.kzalloc kobj.platform_device with
              | none =>
                rw [load_leds_no_memory _ _ _ _ drv adapter a c hlen hdrv hbus halloc hdev
                  hleds hpdev]
              | some p =>
                by_cases hreg : env.platform_device_register p < 0
                · rw [load_leds_register_fail _ _ _ _ drv adapter a c p hlen hdrv hbus halloc
                    hdev hleds hpdev hreg]
                · obtain ⟨names, leds, heq, -⟩ := load_leds_ok env scanned count
                    s drv adapter a c p hlen hdrv hbus halloc hdev hleds
                    hpdev hreg
                  rw [heq]

/-! ## The teardown loop -/

/-- One iteration of the teardown loop unlinks `pos` and makes the calls `exit_events pos`. -/
theorem exit_body_eq (pos : mcpload_entry) (s : State) :
    exit_body pos s =
      { s with entries := s.entries.erase pos, trace := s.trace ++ exit_events pos } := by
  unfold exit_body exit_events
  cases h : pos.led_pdev <;> simp [list_del, State.emit]

/-- The teardown loop over the whole registry empties it and makes the calls of every entry in turn. -/
theorem exit_loop_eq (l : List mcpload_entry) (s : State) (h : s.entries = l) :
    exit_loop l s = { s with entries := [], trace := s.trace ++ l.flatMap exit_events } := by
  induction l generalizing s with
  | nil => cases s; simp_all [exit_loop]
  | cons pos tmp ih =>
    rw [exit_loop, ih (exit_body pos s) (by simp [exit_body_eq, h]), exit_body_eq]
    simp [List.append_assoc]

/-- The state `mcpload_exit` returns. -/
theorem mcpload_exit_eq (s : State) :
    mcpload_exit s =
      { s with
        entries := [],
        trace := s.trace ++ [Event.sysfs_remove_file, Event.mutex_lock] ++
          s.entries.flatMap exit_events ++ [Event.mutex_unlock] } := by
  unfold mcpload_exit
  simp only []
  rw [exit_loop_eq _ _ rfl]
  simp [State.emit, List.append_assoc]

/-- The device releases of one iteration. -/
theorem filter_release_exit_events (pos : mcpload_entry) :
    (exit_events pos).filter Event.is_release =
      (match pos.led_pdev with
        | some pdev => [Event.platform_device_unregister pdev]
        | none => []) ++ [Event.i2c_unregister_device pos.i2c_client] := by
  unfold exit_events
  cases pos.led_pdev <;> simp [Event.is_release]

/-- The device releases of the whole loop. -/
theorem filter_flatMap_exit_events (l : List mcpload_entry) :
    (l.flatMap exit_events).filter Event.is_release =
      l.flatMap (fun e =>
        (match e.led_pdev with
          | some pdev => [Event.platform_device_unregister pdev]
          | none => []) ++ [Event.i2c_unregister_device e.i2c_client]) := by
  induction l with
  | nil => rfl
  | cons pos tmp ih =>
    simp only [List.flatMap_cons, List.filter_append, ih, filter_release_exit_events]

/-- The function `released_clients` distributes over concatenation. -/
theorem released_clients_append (t u : List Event) :
    released_clients (t ++ u) = released_clients t ++ released_clients u := by
  induction t with
  | nil => rfl
  | cons e t ih => cases e <;> simp [released_clients, ih]

/-- The function `released_pdevs` distributes over concatenation. -/
theorem released_pdevs_append (t u : List Event) :
    released_pdevs (t ++ u) = released_pdevs t ++ released_pdevs u := by
  induction t with
  | nil => rfl
  | cons e t ih => cases e <;> simp [released_pdevs, ih]

/-- The loop unregisters the client of each entry, in order. -/
theorem released_clients_exit (l : List mcpload_entry) :
    released_clients (l.flatMap exit_events) = l.map (fun e => e.i2c_client) := by
  induction l with
  | nil => rfl
  | cons pos tmp ih =>
    simp only [List.flatMap_cons, released_clients_append, ih, List.map_cons]
    unfold exit_events
    cases pos.led_pdev <;> simp [released_clients]

/-- The loop unregisters the platform device of each entry that has one, in order. -/
theorem released_pdevs_exit (l : List mcpload_entry) :
    released_pdevs (l.flatMap exit_events) = l.filterMap (fun e => e.led_pdev) := by
  induction l with
  | nil => rfl
  | cons pos tmp ih =>
    simp only [List.flatMap_cons, released_pdevs_append, ih]
    unfold exit_events
    cases h : pos.led_pdev <;> simp [released_pdevs, List.filterMap_cons, h]

/-- An iteration of the teardown loop started with the mutex held makes a device call under it. -/
theorem io_under_lock_exit_events (pos : mcpload_entry) (t : List Event) :
    io_outside_lock true (exit_events pos ++ t) = false := by
  unfold exit_events
  cases pos.led_pdev <;> simp [io_outside_lock, Event.is_device_io]

/-- With the mutex held, the calls of one iteration are all made under it and leave it
held for what follows. -/
theorem io_inside_lock_exit_events (pos : mcpload_entry) (t : List Event) :
    io_inside_lock true (exit_events pos ++ t) = io_inside_lock true t := by
  unfold exit_events
  cases pos.led_pdev <;> simp [io_inside_lock]

/-- With the mutex held, the calls of the whole loop are all made under it. -/
theorem io_inside_lock_exit_loop (l : List mcpload_entry) (t : List Event) :
    io_inside_lock true (l.flatMap exit_events ++ t) = io_inside_lock true t := by
  induction l with
  | nil => rfl
  | cons pos tmp ih =>
    rw [List.flatMap_cons, List.append_assoc, io_inside_lock_exit_events, ih]

/-- The teardown loop itself neither takes nor drops the mutex. -/
theorem no_mutex_in_exit_loop (l : List mcpload_entry) :
    (l.flatMap exit_events).filter
      (fun e => e = Event.mutex_lock ∨ e = Event.mutex_unlock) = [] := by
  induction l with
  | nil => rfl
  | cons pos tmp ih =>
    rw [List.flatMap_cons, List.filter_append, ih]
    unfold exit_events
    cases pos.led_pdev <;> simp

/-! ## Properties of the entry lifecycle -/

/-- C1: when the stored `gpiolen` is neither 8 nor 16, `mcpload_load` returns `-EINVAL`,
leaves the registry as it was, and has called nothing but the `printk` that reports the
bad length: no adapter lookup, no allocation, no device instantiation. -/
theorem load_rejects_bad_gpiolen (env : Env) (scanned : List Int) (count : Nat)
    (entries : List mcpload_entry)
    (h8 : (scan_request scanned).gpiolen ≠ 8) (h16 : (scan_request scanned).gpiolen ≠ 16) :
    (mcpload_load env scanned count (State.start entries)).1 = -EINVAL ∧
    (mcpload_load env scanned count (State.start entries)).2.entries = entries ∧
    ∀ e ∈ (mcpload_load env scanned count (State.start entries)).2.trace,
      e = Event.printk "gpio length must be 8 or 16" := by
  have hdrv : drvtype_of (scan_request scanned).gpiolen = none := by
    simp [drvtype_of, h8, h16]
  by_cases hlen : scanned.length < 4
  · rw [load_short _ _ _ _ hlen]
    simp [State.start]
  · rw [load_bad_gpiolen _ _ _ _ hlen hdrv]
    simp [State.start, State.emit]

/-- Instance of `load_rejects_bad_gpiolen` on a concrete request. -/
theorem load_rejects_bad_gpiolen_witness :
    (scan_request [0, 32, 100, 7]).gpiolen ≠ 8 ∧ (scan_request [0, 32, 100, 7]).gpiolen ≠ 16 ∧
    (mcpload_load env_ok [0, 32, 100, 7] 11 (State.start [])).1 = -EINVAL ∧
    (mcpload_load env_ok [0, 32, 100, 7] 11 (State.start [])).2.entries = [] ∧
    ∀ e ∈ (mcpload_load env_ok [0, 32, 100, 7] 11 (State.start [])).2.trace,
      e = Event.printk "gpio length must be 8 or 16" :=
  ⟨by decide, by decide,
    load_rejects_bad_gpiolen env_ok [0, 32, 100, 7] 11 [] (by decide) (by decide)⟩

/-- C2: for a request with `gpiolen` 8 or 16 and `leds` set, on which the adapter is
found, the entry is allocated and `i2c_new_device` returns the client `c`: when the
indicator bank cannot be set up (its `kzalloc` fails, or `platform_device_register`
returns a negative status), `mcpload_load` returns a negative status, the registry is
unchanged, and `i2c_unregister_device` is called exactly once, on `c`. -/
theorem load_leds_failure_releases_client (env : Env) (scanned : List Int) (count : Nat)
    (entries : List mcpload_entry) (drv : String) (adapter a c : Nat)
    (hlen : 4 ≤ scanned.length)
    (hdrv : drvtype_of (scan_request scanned).gpiolen = some drv)
    (hleds : (scan_request scanned).leds ≠ 0)
    (hbus : env.i2c_get_adapter (int32 (scan_request scanned).adapnum) = some adapter)
    (halloc : env.kzalloc kobj.mcpload_entry = some a)
    (hdev : env.i2c_new_device adapter
      (build_info drv (scan_request scanned) (build_pdata (entry_zero a) (scan_request scanned)))
        = some c)
    (hfail : env.kzalloc kobj.platform_device = none ∨
      ∃ p, env.kzalloc kobj.platform_device = some p ∧ env.platform_device_register p < 0) :
    (mcpload_load env scanned count (State.start entries)).1 < 0 ∧
    (mcpload_load env scanned count (State.start entries)).2.entries = entries ∧
    released_clients (mcpload_load env scanned count (State.start entries)).2.trace = [some c] := by
  have hlen4 : ¬ scanned.length < 4 := by omega
  rcases hfail with hpdev | ⟨p, hpdev, hreg⟩
  · rw [load_leds_no_memory _ _ _ _ drv adapter a c hlen4 hdrv hbus halloc hdev hleds hpdev]
    simp [State.start, ENOMEM, trace_to_client, released_clients]
  · rw [load_leds_register_fail _ _ _ _ drv adapter a c p hlen4 hdrv hbus halloc hdev hleds
      hpdev hreg]
    simp [State.start, hreg, trace_to_client, released_clients]

/-- Instance of `load_leds_failure_releases_client` on a concrete request. -/
theorem load_leds_failure_releases_client_witness :
    (mcpload_load env_led_fail [0, 32, 100, 8, 0, 1] 15 (State.start [])).1 < 0 ∧
    (mcpload_load env_led_fail [0, 32, 100, 8, 0, 1] 15 (State.start [])).2.entries = [] ∧
    released_clients (mcpload_load env_led_fail [0, 32, 100, 8, 0, 1] 15 (State.start [])).2.trace
      = [some 4000] :=
  load_leds_failure_releases_client env_led_fail [0, 32, 100, 8, 0, 1] 15 [] "mcp23008"
    1000 2000 4000 (by decide) (by decide) (by decide) (by decide) (by decide) (by decide)
    (Or.inr ⟨3000, by decide, by decide⟩)

/-- C3: for a write of `count < 2 ^ 63` bytes with `gpiolen` 8 or 16 on which the adapter
is found, the entry is allocated at `a`, `i2c_new_device` returns the client `c` and,
when `leds` is set, the indicator bank is allocated and registered: `mcpload_load`
returns `count` (success), and the registry is the old one followed by exactly one new
entry, whose client is `c` and whose indicator device and indicator configuration are
set exactly when `leds` is set. -/
theorem load_success_appends_entry (env : Env) (scanned : List Int) (count : Nat)
    (entries : List mcpload_entry) (drv : String) (adapter a c : Nat)
    (hcount : count < 9223372036854775808)
    (hlen : 4 ≤ scanned.length)
    (hdrv : drvtype_of (scan_request scanned).gpiolen = some drv)
    (hbus : env.i2c_get_adapter (int32 (scan_request scanned).adapnum) = some adapter)
    (halloc : env.kzalloc kobj.mcpload_entry = some a)
    (hdev : env.i2c_new_device adapter
      (build_info drv (scan_request scanned) (build_pdata (entry_zero a) (scan_request scanned)))
        = some c)
    (hind : (scan_request scanned).leds ≠ 0 →
      ∃ p, env.kzalloc kobj.platform_device = some p ∧ 0 ≤ env.platform_device_register p) :
    (mcpload_load env scanned count (State.start entries)).1 = (count : Int) ∧
    0 ≤ (mcpload_load env scanned count (State.start entries)).1 ∧
    ∃ e, (mcpload_load env scanned count (State.start entries)).2.entries = entries ++ [e] ∧
      e.self = a ∧ e.i2c_client = some c ∧
      (e.led_pdev ≠ none ↔ (scan_request scanned).leds ≠ 0) ∧
      (e.led_pdata.leds = leds_ptr.led_array ↔ (scan_request scanned).leds ≠ 0) ∧
      (e.led_pdata.num_leds =
        if (scan_request scanned).leds ≠ 0 then ((scan_request scanned).gpiolen : Int) else 0) := by
  have hlen4 : ¬ scanned.length < 4 := by omega
  have hret : ssize_t count = (count : Int) := ssize_t_eq_self count hcount
  by_cases hleds : (scan_request scanned).leds = 0
  · rw [load_no_leds _ _ _ _ drv adapter a c hlen4 hdrv hbus halloc hdev hleds]
    refine ⟨hret, by simp [hret],
      entry_built a (scan_request scanned) (some c), rfl, rfl, rfl, ?_, ?_, ?_⟩
    · simp [entry_built, entry_zero, hleds]
    · simp [entry_built, entry_zero, hleds]
    · simp [entry_built, entry_zero, hleds]
  · obtain ⟨p, hpdev, hreg⟩ := hind hleds
    obtain ⟨names, leds, heq, -⟩ := load_leds_ok env scanned count (State.start entries) drv
      adapter a c p hlen4 hdrv hbus halloc hdev hleds hpdev (by omega)
    rw [heq]
    refine ⟨hret, by simp [hret], _, rfl, rfl, rfl, ?_, ?_, ?_⟩ <;> simp [hleds]

/-- Instance of `load_success_appends_entry` on the requests `0 32 100 8 1 1` and
`0 32 100 8`. -/
theorem load_success_appends_entry_witness :
    ((mcpload_load env_ok [0, 32, 100, 8, 1, 1] 15 (State.start [])).1 = ((15 : Nat) : Int) ∧
      0 ≤ (mcpload_load env_ok [0, 32, 100, 8, 1, 1] 15 (State.start [])).1 ∧
      ∃ e, (mcpload_load env_ok [0, 32, 100, 8, 1, 1] 15 (State.start [])).2.entries = [] ++ [e] ∧
        e.self = 2000 ∧ e.i2c_client = some 4000 ∧
        (e.led_pdev ≠ none ↔ (scan_request [0, 32, 100, 8, 1, 1]).leds ≠ 0) ∧
        (e.led_pdata.leds = leds_ptr.led_array ↔ (scan_request [0, 32, 100, 8, 1, 1]).leds ≠ 0) ∧
        (e.led_pdata.num_leds =
          if (scan_request [0, 32, 100, 8, 1, 1]).leds ≠ 0
            then ((scan_request [0, 32, 100, 8, 1, 1]).gpiolen : Int) else 0)) ∧
    ((mcpload_load env_ok [0, 32, 100, 8] 11 (State.start [])).1 = ((11 : Nat) : Int) ∧
      0 ≤ (mcpload_load env_ok [0, 32, 100, 8] 11 (State.start [])).1 ∧
      ∃ e, (mcpload_load env_ok [0, 32, 100, 8] 11 (State.start [])).2.entries = [] ++ [e] ∧
        e.self = 2000 ∧ e.i2c_client = some 4000 ∧
        (e.led_pdev ≠ none ↔ (scan_request [0, 32, 100, 8]).leds ≠ 0) ∧
        (e.led_pdata.leds = leds_ptr.led_array ↔ (scan_request [0, 32, 100, 8]).leds ≠ 0) ∧
        (e.led_pdata.num_leds =
          if (scan_request [0, 32, 100, 8]).leds ≠ 0
            then ((scan_request [0, 32, 100, 8]).gpiolen : Int) else 0)) :=
  ⟨load_success_appends_entry env_ok [0, 32, 100, 8, 1, 1] 15 [] "mcp23008" 1000 2000 4000
      (by decide) (by decide) (by decide) (by decide) (by decide) (by decide)
      (fun _ => ⟨3000, by decide, by decide⟩),
    load_success_appends_entry env_ok [0, 32, 100, 8] 11 [] "mcp23008" 1000 2000 4000
      (by decide) (by decide) (by decide) (by decide) (by decide) (by decide)
      (fun h => absurd (by decide) h)⟩

/-- C4 (failing input): on the request `0 32 100 8 0 1`, when `platform_device_register`
fails after the platform device was allocated at 3000, `mcpload_load` returns the
error, leaves the registry unchanged, unregisters the client and frees the entry, but
never frees the platform device: no `kfree` of 3000 is made. -/
theorem load_register_failure_leaks_pdev :
    (mcpload_load env_led_fail [0, 32, 100, 8, 0, 1] 15 (State.start [])).1 = -ENOMEM ∧
    (mcpload_load env_led_fail [0, 32, 100, 8, 0, 1] 15 (State.start [])).2.entries = [] ∧
    (mcpload_load env_led_fail [0, 32, 100, 8, 0, 1] 15 (State.start [])).2.trace =
      [Event.i2c_get_adapter 0 (some 1000),
       Event.kzalloc kobj.mcpload_entry (some 2000),
       Event.i2c_new_device 1000
         (build_info "mcp23008" (scan_request [0, 32, 100, 8, 0, 1])
           (build_pdata (entry_zero 2000) (scan_request [0, 32, 100, 8, 0, 1]))) (some 4000),
       Event.kzalloc kobj.platform_device (some 3000),
       Event.platform_device_register 3000 (-12),
       Event.printk "failed to initialize LED device",
       Event.i2c_unregister_device (some 4000),
       Event.kfree 2000] ∧
    Event.kfree 3000 ∉
      (mcpload_load env_led_fail [0, 32, 100, 8, 0, 1] 15 (State.start [])).2.trace := by
  decide

/-- The return value is the `ssize_t` reading of `count`: a write of `2 ^ 64 - 1` bytes,
which sysfs never hands over, would link the entry and return `-1`. -/
theorem load_count_wraps :
    (mcpload_load env_ok [0, 32, 100, 8] 18446744073709551615 (State.start [])).1 = -1 ∧
    (mcpload_load env_ok [0, 32, 100, 8] 18446744073709551615
      (State.start [])).2.entries.length = 1 := by
  decide

/-- For a write of `count < 2 ^ 63` bytes, every error return of `mcpload_load` leaves the
registry unchanged, has unregistered exactly the clients `i2c_new_device` handed out,
has freed the entry it allocated, and has no platform device registered. -/
theorem load_error_unwinds (env : Env) (scanned : List Int) (count : Nat)
    (entries : List mcpload_entry) (hcount : count < 9223372036854775808)
    (herr : (mcpload_load env scanned count (State.start entries)).1 < 0) :
    (mcpload_load env scanned count (State.start entries)).2.entries = entries ∧
    released_clients (mcpload_load env scanned count (State.start entries)).2.trace =
      created_clients (mcpload_load env scanned count (State.start entries)).2.trace ∧
    (∀ a, Event.kzalloc kobj.mcpload_entry (some a) ∈
        (mcpload_load env scanned count (State.start entries)).2.trace →
      Event.kfree a ∈ (mcpload_load env scanned count (State.start entries)).2.trace) ∧
    (∀ p r, Event.platform_device_register p r ∈
        (mcpload_load env scanned count (State.start entries)).2.trace → r < 0) := by
  revert herr
  by_cases hlen : scanned.length < 4
  · rw [load_short _ _ _ _ hlen]
    simp [State.start, released_clients, created_clients]
  · cases hdrv : drvtype_of (scan_request scanned).gpiolen with
    | none =>
      rw [load_bad_gpiolen _ _ _ _ hlen hdrv]
      simp [State.start, State.emit, released_clients, created_clients]
    | some drv =>
      cases hbus : env.i2c_get_adapter (int32 (scan_request scanned).adapnum) with
      | none =>
        rw [load_no_adapter _ _ _ _ drv hlen hdrv hbus]
        simp [State.start, released_clients, created_clients]
      | some adapter =>
        cases halloc : env.kzalloc kobj.mcpload_entry with
        | none =>
          rw [load_no_memory _ _ _ _ drv adapter hlen hdrv hbus halloc]
          simp [State.start, released_clients, created_clients]
        | some a =>
          cases hdev : env.i2c_new_device adapter (build_info drv (scan_request scanned)
              (build_pdata (entry_zero a) (scan_request scanned))) with
          | none =>
            rw [load_no_client _ _ _ _ drv adapter a hlen hdrv hbus halloc hdev]
            simp [State.start, released_clients, created_clients, trace_to_client]
          | some c =>
            by_cases hleds : (scan_request scanned).leds = 0
            · rw [load_no_leds _ _ _ _ drv adapter a c hlen hdrv hbus halloc hdev hleds]
              intro herr
              simp [ssize_t_eq_self count hcount] at herr
              omega
            · cases hpdev : env.kzalloc kobj.platform_device with
              | none =>
                rw [load_leds_no_memory _ _ _ _ drv adapter a c hlen hdrv hbus halloc hdev
                  hleds hpdev]
                simp [State.start, released_clients, created_clients, trace_to_client]
              | some p =>
                by_cases hreg : env.platform_device_register p < 0
                · rw [load_leds_register_fail _ _ _ _ drv adapter a c p hlen hdrv hbus halloc
                    hdev hleds hpdev hreg]
                  simp [State.start, released_clients, created_clients, trace_to_client, hreg]
                · obtain ⟨names, leds, heq, -⟩ := load_leds_ok env scanned count
                    (State.start entries) drv adapter a c p hlen hdrv hbus halloc hdev hleds
                    hpdev hreg
                  rw [heq]
                  intro herr
                  simp [ssize_t_eq_self count hcount] at herr
                  omega

/-- C5: in the bulk teardown of `mcpload_exit`, the device releases are made entry by
entry in registry order, and for each entry the indicator bank is unregistered first
when `led_pdev` is set (no indicator release when it is `NULL`), the expander client
only after it. -/
theorem exit_release_order (entries : List mcpload_entry) :
    (mcpload_exit (State.start entries)).trace.filter Event.is_release =
      entries.flatMap (fun e =>
        (match e.led_pdev with
          | some pdev => [Event.platform_device_unregister pdev]
          | none => []) ++ [Event.i2c_unregister_device e.i2c_client]) := by
  rw [mcpload_exit_eq]
  simp [State.start, List.filter_append, filter_flatMap_exit_events, Event.is_release]

/-- C6: one drain empties the registry and releases the expander client of every entry
and the indicator device of every entry that has one, once per entry; a second drain
right after it finds the registry empty and releases nothing. -/
theorem exit_drains_once (entries : List mcpload_entry) :
    (mcpload_exit (State.start entries)).entries = [] ∧
    released_clients (mcpload_exit (State.start entries)).trace =
      entries.map (fun e => e.i2c_client) ∧
    released_pdevs (mcpload_exit (State.start entries)).trace =
      entries.filterMap (fun e => e.led_pdev) ∧
    (mcpload_exit (mcpload_exit (State.start entries))).entries = [] ∧
    (mcpload_exit (mcpload_exit (State.start entries))).trace =
      (mcpload_exit (State.start entries)).trace ++
        [Event.sysfs_remove_file, Event.mutex_lock, Event.mutex_unlock] ∧
    released_clients (mcpload_exit (mcpload_exit (State.start entries))).trace =
      entries.map (fun e => e.i2c_client) ∧
    released_pdevs (mcpload_exit (mcpload_exit (State.start entries))).trace =
      entries.filterMap (fun e => e.led_pdev) := by
  rw [mcpload_exit_eq (mcpload_exit (State.start entries)), mcpload_exit_eq]
  simp [State.start, released_clients_append, released_pdevs_append, released_clients_exit,
    released_pdevs_exit, released_clients, released_pdevs]

/-- C7 (as stated, refuted): the entries with base offsets 100 and 101 share the name
`"mcp:101"`, which is channel 1 of the first and channel 0 of the second. -/
theorem led_names_collide :
    (100 : Int) ≠ 101 ∧
    (mcpload_load_leds env_ok (entry_zero 2000) 100 8 (State.start [])).2.1.led_names[1]? =
      some ['m', 'c', 'p', ':', '1', '0', '1'] ∧
    (mcpload_load_leds env_ok (entry_zero 2001) 101 8 (State.start [])).2.1.led_names[0]? =
      some ['m', 'c', 'p', ':', '1', '0', '1'] := by
  decide

/-- C7 (amended): the name of channel `i` of one entry equals the name of channel `j` of
another exactly when the two channels have the same `int` pin number, `base1 + i` and
`base2 + j`; in particular the same channel index of two entries whose base offsets
differ never gets the same name. -/
theorem led_names_equal_iff (env1 env2 : Env) (entry1 entry2 : mcpload_entry)
    (base1 base2 len1 len2 : Int) (s1 s2 : State) (p1 p2 : Nat) (i j : Nat)
    (hlen1 : len1 = 8 ∨ len1 = 16) (hlen2 : len2 = 8 ∨ len2 = 16)
    (hnames1 : entry1.led_names.length = 16) (hnames2 : entry2.led_names.length = 16)
    (halloc1 : env1.kzalloc kobj.platform_device = some p1)
    (halloc2 : env2.kzalloc kobj.platform_device = some p2)
    (hi : (i : Int) < len1) (hj : (j : Int) < len2) :
    ((mcpload_load_leds env1 entry1 base1 len1 s1).2.1.led_names[i]? =
        (mcpload_load_leds env2 entry2 base2 len2 s2).2.1.led_names[j]? ↔
      int32 (base1 + i) = int32 (base2 + j)) ∧
    (i = j → int32 base1 ≠ int32 base2 →
      (mcpload_load_leds env1 entry1 base1 len1 s1).2.1.led_names[i]? ≠
        (mcpload_load_leds env2 entry2 base2 len2 s2).2.1.led_names[j]?) := by
  have hk1 : len1.toNat ≤ 16 := by rcases hlen1 with h | h <;> simp [h]
  have hk2 : len2.toNat ≤ 16 := by rcases hlen2 with h | h <;> simp [h]
  obtain ⟨names1, leds1, heq1, -, -, h1, -⟩ :=
    load_leds_result env1 entry1 base1 len1 s1 p1 hk1 halloc1
  obtain ⟨names2, leds2, heq2, -, -, h2, -⟩ :=
    load_leds_result env2 entry2 base2 len2 s2 p2 hk2 halloc2
  have e1 := h1 i (by omega) (by rcases hlen1 with h | h <;> omega)
  have e2 := h2 j (by omega) (by rcases hlen2 with h | h <;> omega)
  have key : (mcpload_load_leds env1 entry1 base1 len1 s1).2.1.led_names[i]? =
        (mcpload_load_leds env2 entry2 base2 len2 s2).2.1.led_names[j]? ↔
      int32 (base1 + i) = int32 (base2 + j) := by
    rw [heq1, heq2]
    simp only [e1, e2, Option.some.injEq]
    exact sprintf_mcp_inj _ _
  refine ⟨key, fun hij hne heq => hne ?_⟩
  have h := key.mp heq
  subst hij
  unfold int32 at h ⊢
  split at h <;> split at h <;> split <;> split <;> omega

/-- Instance of `led_names_equal_iff` on a concrete request. -/
theorem led_names_equal_iff_witness :
    ((mcpload_load_leds env_ok (entry_zero 2000) 100 8 (State.start [])).2.1.led_names[3]? =
        (mcpload_load_leds env_ok (entry_zero 2001) 108 16 (State.start [])).2.1.led_names[3]? ↔
      int32 (100 + (3 : Nat)) = int32 (108 + (3 : Nat))) ∧
    (mcpload_load_leds env_ok (entry_zero 2000) 100 8 (State.start [])).2.1.led_names[3]? ≠
      (mcpload_load_leds env_ok (entry_zero 2001) 108 16 (State.start [])).2.1.led_names[3]? :=
  have h := led_names_equal_iff env_ok env_ok (entry_zero 2000) (entry_zero 2001) 100 108 8 16
    (State.start []) (State.start []) 3000 3000 3 3 (Or.inl rfl) (Or.inr rfl)
    (by decide) (by decide) (by decide) (by decide) (by decide) (by decide)
  ⟨h.1, h.2 rfl (by decide)⟩

/-- C8 (as stated, refuted): on the request `0 32 -1 8 0 1` channel 0 gets the name
`"mcp:-1"` while its pin number is 4294967295, so the name is not the decimal form of
the pin number and the pin number is not `-1`; its default trigger is the string
`"none"`, not a null pointer. -/
theorem led_name_differs_from_pin :
    (mcpload_load env_ok [0, 32, -1, 8, 0, 1] 15 (State.start [])).2.entries.map
        (fun e => (e.led_names[0]?, e.led_array[0]?)) =
      [(some ['m', 'c', 'p', ':', '-', '1'],
        some { name := some 0
               default_trigger := some "none"
               gpio := 4294967295
               active_low := 0
               retain_state_suspended := 1
               default_state := leds_gpio_defstate.KEEP })] ∧
    ['m', 'c', 'p', ':', '-', '1'] = ("mcp:" ++ toString (-1 : Int)).toList ∧
    ['m', 'c', 'p', ':', '-', '1'] ≠ ("mcp:" ++ toString (4294967295 : Int)).toList ∧
    ((4294967295 : Nat) : Int) ≠ -1 := by
  decide

/-- C8 (amended): for `gpiolen` 8 or 16 and any `gpiobase`, once the platform device is
allocated `mcpload_load_leds` leaves `led_pdata` with `num_leds = gpiolen` pointing at
`led_array`, and for every `i < gpiolen` descriptor `i` has its name in row `i` of
`led_names`, equal to `"mcp:"` followed by the decimal form of `gpiobase + i` wrapped to
a signed 32-bit number, the low 32 bits of `gpiobase + i` as pin number, the string
`"none"` as default trigger and default state `KEEP`. Whenever
`0 ≤ gpiobase + i < 2 ^ 31` the name is `"mcp:"` followed by the decimal form of
`gpiobase + i` itself and the pin number is `gpiobase + i` itself. -/
theorem load_leds_descriptors (env : Env) (entry : mcpload_entry) (gpiobase gpiolen : Int)
    (s : State) (p : Nat)
    (hn : gpiolen = 8 ∨ gpiolen = 16)
    (hnames : entry.led_names.length = 16) (hleds : entry.led_array.length = 16)
    (halloc : env.kzalloc kobj.platform_device = some p) :
    (mcpload_load_leds env entry gpiobase gpiolen s).2.1.led_pdata =
      { num_leds := gpiolen, leds := leds_ptr.led_array } ∧
    ∀ i : Nat, (i : Int) < gpiolen →
      (mcpload_load_leds env entry gpiobase gpiolen s).2.1.led_array[i]? =
        some { name := some i
               default_trigger := some "none"
               gpio := ((gpiobase + i) % 4294967296).toNat
               active_low := 0
               retain_state_suspended := 1
               default_state := leds_gpio_defstate.KEEP } ∧
      (mcpload_load_leds env entry gpiobase gpiolen s).2.1.led_names[i]? =
        some ("mcp:" ++ toString
          (if (gpiobase + i) % 4294967296 < 2147483648 then (gpiobase + i) % 4294967296
            else (gpiobase + i) % 4294967296 - 4294967296)).toList ∧
      (0 ≤ gpiobase + i → gpiobase + i < 2147483648 →
        (mcpload_load_leds env entry gpiobase gpiolen s).2.1.led_array[i]? =
          some { name := some i
                 default_trigger := some "none"
                 gpio := (gpiobase + i).toNat
                 active_low := 0
                 retain_state_suspended := 1
                 default_state := leds_gpio_defstate.KEEP } ∧
        (mcpload_load_leds env entry gpiobase gpiolen s).2.1.led_names[i]? =
          some ("mcp:" ++ toString (gpiobase + i)).toList) := by
  have hk : gpiolen.toNat ≤ 16 := by rcases hn with h | h <;> simp [h]
  obtain ⟨names, leds, heq, -, -, h1, -, h3, -⟩ :=
    load_leds_result env entry gpiobase gpiolen s p hk halloc
  rw [heq]
  have hmcp : ∀ v : Int, sprintf_mcp v = ("mcp:" ++ toString v).toList := by
    intro v
    simp only [sprintf_mcp, fmt_d_eq_toString]
    rfl
  have hu : ∀ v : Int, u32 (int32 v) = (v % 4294967296).toNat := by
    intro v
    unfold u32 int32
    split <;> congr 1 <;> omega
  refine ⟨rfl, fun i hi => ?_⟩
  have e3 := h3 i (by omega) (by rcases hn with h | h <;> omega)
  have e1 := h1 i (by omega) (by rcases hn with h | h <;> omega)
  simp only [led_of, hu, hmcp] at e3 e1
  refine ⟨e3, ?_, fun h0 h31 => ⟨?_, ?_⟩⟩
  · simpa [int32] using e1
  · have hm : (gpiobase + i) % 4294967296 = gpiobase + i := by omega
    simpa [hm] using e3
  · have hv : int32 (gpiobase + i) = gpiobase + i := int32_eq_self _ (by omega) h31
    simpa [hv] using e1

/-- Instance of `load_leds_descriptors` at base 100 with 8 channels: channel 7 is named
`"mcp:107"` and has pin number 107. -/
theorem load_leds_descriptors_witness :
    ((mcpload_load_leds env_ok (entry_zero 2000) 100 8 (State.start [])).2.1.led_pdata =
        { num_leds := 8, leds := leds_ptr.led_array } ∧
      (mcpload_load_leds env_ok (entry_zero 2000) 100 8 (State.start [])).2.1.led_array[7]? =
        some { name := some 7
               default_trigger := some "none"
               gpio := (100 + ((7 : Nat) : Int)).toNat
               active_low := 0
               retain_state_suspended := 1
               default_state := leds_gpio_defstate.KEEP } ∧
      (mcpload_load_leds env_ok (entry_zero 2000) 100 8 (State.start [])).2.1.led_names[7]? =
        some ("mcp:" ++ toString (100 + ((7 : Nat) : Int))).toList) ∧
    (100 + ((7 : Nat) : Int)).toNat = 107 ∧
    ("mcp:" ++ toString (100 + ((7 : Nat) : Int))).toList = ['m', 'c', 'p', ':', '1', '0', '7'] :=
  have h := load_leds_descriptors env_ok (entry_zero 2000) 100 8 (State.start []) 3000
    (Or.inl rfl) (by decide) (by decide) (by decide)
  ⟨⟨h.1, ((h.2 7 (by decide)).2.2 (by decide) (by decide)).1,
      ((h.2 7 (by decide)).2.2 (by decide) (by decide)).2⟩, by decide, by decide⟩

/-- C9 (as stated, refuted): draining a registry that holds the entry created by the
request `0 32 100 8` calls `i2c_unregister_device` between `mutex_lock` and
`mutex_unlock`. -/
theorem exit_releases_under_lock :
    (mcpload_exit (State.start
        (mcpload_load env_ok [0, 32, 100, 8] 11 (State.start [])).2.entries)).trace =
      [Event.sysfs_remove_file, Event.mutex_lock, Event.list_del 2000,
       Event.i2c_unregister_device (some 4000), Event.kfree 2000, Event.mutex_unlock] ∧
    io_outside_lock false (mcpload_exit (State.start
        (mcpload_load env_ok [0, 32, 100, 8] 11 (State.start [])).2.entries)).trace = false := by
  decide

/-- C9 (amended): in every execution of `mcpload_load` no call that instantiates or
releases a device is made while `entries_mutex` is held. `mcpload_exit` takes the mutex
once before its teardown loop and drops it once after it, so every
`platform_device_unregister` and `i2c_unregister_device` of the drain is made while the
mutex is held; its trace is free of device calls under the mutex only when the registry
is empty. -/
theorem lock_scope :
    (∀ (env : Env) (scanned : List Int) (count : Nat) (entries : List mcpload_entry),
      io_outside_lock false
        (mcpload_load env scanned count (State.start entries)).2.trace = true) ∧
    (∀ entries : List mcpload_entry,
      io_inside_lock false (mcpload_exit (State.start entries)).trace = true ∧
      (mcpload_exit (State.start entries)).trace.filter
          (fun e => e = Event.mutex_lock ∨ e = Event.mutex_unlock) =
        [Event.mutex_lock, Event.mutex_unlock] ∧
      (io_outside_lock false (mcpload_exit (State.start entries)).trace = true ↔
        entries = [])) := by
  refine ⟨load_io_outside_lock, fun entries => ⟨?_, ?_, ?_⟩⟩
  · rw [mcpload_exit_eq]
    simp [State.start, io_inside_lock, List.append_assoc, io_inside_lock_exit_loop,
      Event.is_device_io]
  · rw [mcpload_exit_eq]
    simp only [State.start, List.nil_append, List.filter_append, no_mutex_in_exit_loop]
    rfl
  · rw [mcpload_exit_eq]
    cases entries with
    | nil => simp [State.start, io_outside_lock]
    | cons pos tmp =>
      simp [State.start, io_outside_lock, List.append_assoc, io_under_lock_exit_events]

/-- The out-of-bounds flag does fire: a loop bound of 17 addresses index 16. -/
theorem load_leds_oob_detected :
    (mcpload_load_leds env_ok (entry_zero 2000) 100 17 (State.start [])).2.2.oob = true := by
  decide

/-- C10: no store of `mcpload_load` leaves `led_array[16]` or `led_names[16][20]`,
whatever the request and the kernel do; and for `gpiolen` 8 or 16 every index the loop
of `mcpload_load_leds` writes is below 16, and every name rendered for an `int` pin
number takes, with its NUL byte, at most 20 bytes. -/
theorem led_stores_in_bounds :
    (∀ (env : Env) (scanned : List Int) (count : Nat) (entries : List mcpload_entry),
      (mcpload_load env scanned count (State.start entries)).2.oob = false) ∧
    (∀ (gpiobase gpiolen : Int) (i : Nat), (gpiolen = 8 ∨ gpiolen = 16) → (i : Int) < gpiolen →
      i < 16 ∧ (sprintf_mcp (int32 (gpiobase + i))).length + 1 ≤ 20) := by
  refine ⟨fun env scanned count entries => ?_, fun gpiobase gpiolen i hn hi => ⟨?_, ?_⟩⟩
  · rw [load_keeps_oob]; rfl
  · rcases hn with h | h <;> omega
  · have := sprintf_mcp_length _ (int32_range (gpiobase + i)).1 (int32_range (gpiobase + i)).2
    omega

/-- Instance of `led_stores_in_bounds` on a concrete request. -/
theorem led_stores_in_bounds_witness :
    (mcpload_load env_ok [0, 32, 2147483640, 16, 0, 1] 22 (State.start [])).2.oob = false ∧
    (15 < 16 ∧ (sprintf_mcp (int32 (2147483640 + (15 : Nat)))).length + 1 ≤ 20) :=
  ⟨led_stores_in_bounds.1 env_ok [0, 32, 2147483640, 16, 0, 1] 22 [],
    led_stores_in_bounds.2 2147483640 16 15 (Or.inr rfl) (by decide)⟩

end Mcpload
